import Mathlib

/-!
Shallow embedding of the browser-automation generation engine in
`src/app.py` (Perpelixty-n8n-server): the CDP availability checker
`wait_for_cdp` (lines 87-99), the result materializer
`download_and_encode_image` (lines 106-147), the adaptive typing delay
(line 270), the prompt-submission fallback chain (lines 232-327), and the
generation-completion polling state machine inside
`generate_image_with_playwright` (lines 335-435).

Page interactions are modelled by explicit observation values: each
polling tick receives what the live queries would have returned (overlay
state, `img` sources, loading indicators), or records that the query
raised.  All definitions are executable; machine behaviour is taken from
the Python source, never from the prose specification (the one
spec-derived definition, `specDomainOf`, is marked as such and exists
only to compare the spec's wording with the source's check).
-/

/-- Boolean test that `pat` occurs as a contiguous segment of the list.
Embeds Python's `in` operator on strings and the CSS attribute-contains
selector `[src*=...]` used at lines 222, 356 and 404. -/
def listContainsSeg (pat : List Char) : List Char → Bool
  | [] => pat.isEmpty
  | c :: rest => pat.isPrefixOf (c :: rest) || listContainsSeg pat rest

/-- Python `s.endswith(pat)`. -/
def strEndsWith (s pat : String) : Bool := pat.data.isSuffixOf s.data

/-- Python `pat in s` (substring containment). -/
def strContains (s pat : String) : Bool := listContainsSeg pat.data s.data

/-- First recognized hosting domain string (app.py lines 34, 62, 222, 356, 404). -/
def s3Domain : String := "user-gen-media-assets.s3.amazonaws.com"

/-- Second recognized hosting domain string (app.py lines 35, 64, 222, 356, 404). -/
def imageDeliveryDomain : String := "imagedelivery.net"

/-- Extension validity check used at app.py lines 364 and 410:
`src.endswith('.png') or src.endswith('.jpg') or src.endswith('.jpeg')`. -/
def validExt (s : String) : Bool :=
  strEndsWith s ".png" || strEndsWith s ".jpg" || strEndsWith s ".jpeg"

/-- The selector `img[src*="..."], img[src*="..."]` (lines 222, 356, 404)
matches an element whose `src` contains either recognized domain string
as a substring anywhere in the URL. -/
def domainMatch (s : String) : Bool :=
  strContains s s3Domain || strContains s imageDeliveryDomain

/-- Modelled from the spec: the "domain" of an https URL in the sense of
section 3 of the spec ("to come from one of two recognized hosting
domains") - the host component, i.e. the text after the scheme and
before the first slash.  Declared only to compare the spec's wording
against the source's substring test `domainMatch`; helper that drops
everything from the first slash on. -/
def takeUntilSlash : List Char → List Char
  | [] => []
  | c :: rest => if c = '/' then [] else c :: takeUntilSlash rest

/-- Modelled from the spec: host component of an https URL (see
`takeUntilSlash`). -/
def specDomainOf (s : String) : String :=
  String.mk (takeUntilSlash (if "https://".data.isPrefixOf s.data then s.data.drop 8 else s.data))

/-- One polled snapshot of the page, as queried by the polling loop
(app.py lines 341-396): the grid overlay (`none` when neither overlay
selector matched, otherwise the number of opacity-styled children found
at line 351), the `src` attributes of the page's `img` elements that
carry one, and whether loading/animation indicator elements were present
(line 380). -/
structure PageObs where
  gridOverlay : Option Nat
  imgSrcs : List String
  generating : Bool
deriving DecidableEq

/-- Embeds `has_grid_pattern` (app.py lines 349-353): an overlay counts
only when it was found and has at least one opacity-styled child. -/
def hasGridPattern (o : PageObs) : Bool :=
  match o.gridOverlay with
  | none => false
  | some k => decide (0 < k)

/-- Elements returned by the domain-restricted `img` selector
(lines 222, 356, 404), in document order. -/
def selectedImgs (o : PageObs) : List String :=
  o.imgSrcs.filter domainMatch

/-- The scan at lines 359-371 (and 405-417): the first `src` that is not
in the baseline set and passes the extension check wins; sources with an
invalid extension are logged and skipped, and scanning continues. -/
def firstValidNew (existing : List String) : List String → Option String
  | [] => none
  | s :: rest =>
      if s ∈ existing then firstValidNew existing rest
      else if validExt s then some s
      else firstValidNew existing rest

/-- One iteration's page interaction: a successful round of queries, a
target-closed failure (matched at app.py lines 424-427), or any other
raised error (line 428 re-raises it). -/
inductive Tick where
  | obs (o : PageObs)
  | closed
  | err
deriving DecidableEq

/-- Terminal result of the waiting section of
`generate_image_with_playwright`: which exit path was taken. -/
inductive Outcome where
  | found (url : String)
  | timedOut
  | aborted
  | raised
deriving DecidableEq

/-- Result of the primary `while` loop (lines 341-396): either an early
exit, or the primary time bound expired with the final value of the
`generation_started` latch. -/
inductive PrimResult where
  | exited (out : Outcome)
  | timeout (started : Bool)
deriving DecidableEq

/-- Primary polling loop (app.py lines 341-396).  Each tick computes
`has_grid_pattern`, scans for the first valid new image, breaks with it
when the overlay pattern is absent (lines 374-377), and otherwise updates
the `generation_started` latch (lines 381-383) and keeps polling.  The
trace lists the ticks that fit inside the primary time budget
(`TIMEOUT` ms, one tick per second). -/
def runPrimary (existing : List String) : Bool → List Tick → PrimResult
  | started, [] => PrimResult.timeout started
  | _, Tick.closed :: _ => PrimResult.exited Outcome.aborted
  | _, Tick.err :: _ => PrimResult.exited Outcome.raised
  | started, Tick.obs o :: rest =>
      match firstValidNew existing (selectedImgs o) with
      | some u =>
          if hasGridPattern o then runPrimary existing (started || o.generating) rest
          else PrimResult.exited (Outcome.found u)
      | none => runPrimary existing (started || o.generating) rest

/-- Extended wait loop (app.py lines 399-420): at most 15 further
one-second ticks that only rescan for a valid new image; the overlay is
not queried here. -/
def runExtended (existing : List String) : Nat → List Tick → Outcome
  | 0, _ => Outcome.timedOut
  | _ + 1, [] => Outcome.timedOut
  | _ + 1, Tick.closed :: _ => Outcome.aborted
  | _ + 1, Tick.err :: _ => Outcome.raised
  | fuel + 1, Tick.obs o :: rest =>
      match firstValidNew existing (selectedImgs o) with
      | some u => Outcome.found u
      | none => runExtended existing fuel rest

/-- The complete waiting section (app.py lines 335-435): the primary
loop, then the extended wait only when the latch is set and nothing was
found (line 399), then the final `if img` (lines 430-435). -/
def runDetector (existing : List String) (primary extended : List Tick) : Outcome :=
  match runPrimary existing false primary with
  | PrimResult.exited out => out
  | PrimResult.timeout started =>
      if started then runExtended existing 15 extended else Outcome.timedOut

/-- What the Python caller receives from the waiting section: `.error ()`
when an exception other than a target-closed one is re-raised (line 428);
otherwise the returned `Optional[str]` - the URL on the found path
(line 432) and `None` on both the timed-out path (line 435) and the
closed-target path (line 427). -/
def pyReturn : Outcome → Except Unit (Option String)
  | Outcome.found u => Except.ok (some u)
  | Outcome.timedOut => Except.ok none
  | Outcome.aborted => Except.ok none
  | Outcome.raised => Except.error ()

/-- Outcome of one probe of the CDP endpoint (app.py lines 92-97): an
HTTP response with a status code, or a raised exception (connection
refused, timeout), which the `except` swallows. -/
inductive ProbeResult where
  | status (code : Nat)
  | failed
deriving DecidableEq

/-- Embeds `wait_for_cdp` (app.py lines 87-99) over the sequence of
probes issued before the deadline: `true` on the first 200 response,
failures and non-200 statuses are skipped, `false` once the deadline
exhausts the probes. -/
def wait_for_cdp : List ProbeResult → Bool
  | [] => false
  | ProbeResult.status c :: rest => if c = 200 then true else wait_for_cdp rest
  | ProbeResult.failed :: rest => wait_for_cdp rest

/-- An HTTP response as consumed by `download_and_encode_image`
(app.py lines 112-119): status code, optional content-type header, body
bytes. -/
structure HttpResponse where
  status : Nat
  contentTypeHeader : Option String
  body : List Nat
deriving DecidableEq

/-- Python `content_type.startswith('image/')` (app.py line 120). -/
def ctIsImage (ct : String) : Bool := "image/".data.isPrefixOf ct.data

/-- Content-type resolution of app.py lines 119-127: take the header
value with default `image/png`; only when that value does not start with
`image/` fall back to the URL extension (`.jpg`/`.jpeg` give
`image/jpeg`, anything else gives `image/png`). -/
def resolveContentType (image_url : String) (resp : HttpResponse) : String :=
  let ct := resp.contentTypeHeader.getD "image/png"
  if ctIsImage ct then ct
  else if strEndsWith image_url ".jpg" || strEndsWith image_url ".jpeg" then "image/jpeg"
  else if strEndsWith image_url ".png" then "image/png"
  else "image/png"

/-- Base64 alphabet in index order. -/
def b64Alphabet : List Char :=
  "ABCDEFGHIJKLMNOPQRSTUVWXYZabcdefghijklmnopqrstuvwxyz0123456789+/".data

/-- Character for a 6-bit group. -/
def b64Char (n : Nat) : Char := b64Alphabet.getD n 'A'

/-- Standard base64 of a byte sequence (Python `base64.b64encode`,
app.py line 130). -/
def b64encodeBytes : List Nat → List Char
  | [] => []
  | [b1] => [b64Char (b1 / 4), b64Char (b1 % 4 * 16), '=', '=']
  | [b1, b2] => [b64Char (b1 / 4), b64Char (b1 % 4 * 16 + b2 / 16), b64Char (b2 % 16 * 4), '=']
  | b1 :: b2 :: b3 :: rest =>
      b64Char (b1 / 4) :: b64Char (b1 % 4 * 16 + b2 / 16) ::
        b64Char (b2 % 16 * 4 + b3 / 64) :: b64Char (b3 % 64) :: b64encodeBytes rest

/-- The dictionary built at app.py lines 137-143. -/
structure DownloadedImage where
  base64 : String
  dataUri : String
  contentType : String
  size : Nat
  originalUrl : String
deriving DecidableEq

/-- Embeds `download_and_encode_image` (app.py lines 106-147).  `net` is
the network effect of `requests.get`: `none` when the request raised;
`raise_for_status` (line 113) turns a 4xx/5xx status into the same
`None` result via the enclosing `except` (lines 145-147). -/
def download_and_encode_image (image_url : String) (net : Option HttpResponse) :
    Option DownloadedImage :=
  match net with
  | none => none
  | some resp =>
      if 400 ≤ resp.status ∧ resp.status < 600 then none
      else
        let ct := resolveContentType image_url resp
        let b64 := String.mk (b64encodeBytes resp.body)
        some { base64 := b64, dataUri := "data:" ++ ct ++ ";base64," ++ b64,
               contentType := ct, size := resp.body.length, originalUrl := image_url }

/-- Adaptive per-character typing delay in milliseconds (app.py
line 270): `max(5, min(20, 1000 // max(1, len(prompt_text))))`, where the
argument is the prompt length. -/
def typing_delay_ms (n : Nat) : Nat := max 5 (min 20 (1000 / max 1 n))

/-- Observed state of one submit-button candidate in the loop at app.py
lines 288-300: whether probing or clicking it raised (caught by the inner
`except`, line 299), and its enabled/visible flags. -/
structure BtnObs where
  raises : Bool
  enabled : Bool
  visible : Bool
deriving DecidableEq

/-- Submit-button loop (app.py lines 288-300): the first present
candidate that does not raise and is both enabled and visible is clicked
and sets `submitted`; otherwise scanning continues. -/
def buttonSubmits : List (Option BtnObs) → Bool
  | [] => false
  | none :: rest => buttonSubmits rest
  | some b :: rest =>
      if b.raises then buttonSubmits rest
      else if b.enabled && b.visible then true
      else buttonSubmits rest

/-- What one input-locator strategy encountered (app.py lines 240-323):
no element matched the selector, the element was not visible
(lines 248-251), an interaction raised inside the per-element `try`
(caught at lines 317-319 or 321-323), or the prompt was injected, with
the submit-button observations and whether the Enter-key fallback
(lines 303-308) raised. -/
inductive AttemptObs where
  | noElement
  | notVisible
  | interactRaise
  | injected (buttons : List (Option BtnObs)) (enterRaises : Bool)
deriving DecidableEq

/-- Whether one input-locator strategy ends with `submitted` and
`input_found` set (app.py lines 277-315): a clicked submit button, or
otherwise the unconditional Enter-key fallback, which records
`submitted = True` unless the key press itself raised. -/
def attemptSucceeds : AttemptObs → Bool
  | AttemptObs.noElement => false
  | AttemptObs.notVisible => false
  | AttemptObs.interactRaise => false
  | AttemptObs.injected btns enterRaises =>
      if buttonSubmits btns then true else !enterRaises

/-- The input-selector loop (app.py lines 240-327): `input_found` is set
by the first succeeding strategy; when none succeeds the function returns
`None` - the InputNotFound failure (lines 325-327). -/
def submitPrompt (attempts : List AttemptObs) : Bool :=
  attempts.any attemptSucceeds

theorem firstValidNew_eq_some (existing : List String) :
    ∀ l u, firstValidNew existing l = some u →
      u ∉ existing ∧ validExt u = true ∧ u ∈ l := by
  intro l
  induction l with
  | nil => intro u h; simp [firstValidNew] at h
  | cons s rest ih =>
      intro u h
      simp only [firstValidNew] at h
      split at h
      · obtain ⟨h1, h2, h3⟩ := ih u h
        exact ⟨h1, h2, List.mem_cons_of_mem _ h3⟩
      · split at h
        · cases h
          exact ⟨by assumption, by assumption, List.mem_cons_self _ _⟩
        · obtain ⟨h1, h2, h3⟩ := ih u h
          exact ⟨h1, h2, List.mem_cons_of_mem _ h3⟩

theorem firstValidNew_domain (existing : List String) (o : PageObs) (u : String)
    (h : firstValidNew existing (selectedImgs o) = some u) :
    u ∉ existing ∧ validExt u = true ∧ domainMatch u = true := by
  obtain ⟨h1, h2, h3⟩ := firstValidNew_eq_some existing _ u h
  refine ⟨h1, h2, ?_⟩
  simp only [selectedImgs] at h3
  exact (List.mem_filter.mp h3).2

theorem runPrimary_obs_none (existing : List String) (started : Bool) (o : PageObs)
    (rest : List Tick) (hv : firstValidNew existing (selectedImgs o) = none) :
    runPrimary existing started (Tick.obs o :: rest) =
      runPrimary existing (started || o.generating) rest := by
  simp [runPrimary, hv]

theorem runPrimary_obs_some_grid (existing : List String) (started : Bool) (o : PageObs)
    (rest : List Tick) (v : String) (hv : firstValidNew existing (selectedImgs o) = some v)
    (hg : hasGridPattern o = true) :
    runPrimary existing started (Tick.obs o :: rest) =
      runPrimary existing (started || o.generating) rest := by
  simp [runPrimary, hv, hg]

theorem runPrimary_obs_some_nogrid (existing : List String) (started : Bool) (o : PageObs)
    (rest : List Tick) (v : String) (hv : firstValidNew existing (selectedImgs o) = some v)
    (hg : hasGridPattern o = false) :
    runPrimary existing started (Tick.obs o :: rest) = PrimResult.exited (Outcome.found v) := by
  simp [runPrimary, hv, hg]

theorem runPrimary_found (existing : List String) :
    ∀ ticks started u,
      runPrimary existing started ticks = PrimResult.exited (Outcome.found u) →
      u ∉ existing ∧ validExt u = true ∧ domainMatch u = true := by
  intro ticks
  induction ticks with
  | nil => intro started u h; simp [runPrimary] at h
  | cons t rest ih =>
      intro started u h
      cases t with
      | closed => simp [runPrimary] at h
      | err => simp [runPrimary] at h
      | obs o =>
          rcases hv : firstValidNew existing (selectedImgs o) with _ | v
          · rw [runPrimary_obs_none existing started o rest hv] at h
            exact ih _ u h
          · rcases hg : hasGridPattern o with _ | _
            · rw [runPrimary_obs_some_nogrid existing started o rest v hv hg] at h
              have hvu : v = u := by simpa using h
              subst hvu
              exact firstValidNew_domain existing o v hv
            · rw [runPrimary_obs_some_grid existing started o rest v hv hg] at h
              exact ih _ u h

theorem runExtended_found (existing : List String) :
    ∀ fuel ticks u, runExtended existing fuel ticks = Outcome.found u →
      u ∉ existing ∧ validExt u = true ∧ domainMatch u = true := by
  intro fuel
  induction fuel with
  | zero => intro ticks u h; simp [runExtended] at h
  | succ fuel ih =>
      intro ticks u h
      cases ticks with
      | nil => simp [runExtended] at h
      | cons t rest =>
          cases t with
          | closed => simp [runExtended] at h
          | err => simp [runExtended] at h
          | obs o =>
              rcases hv : firstValidNew existing (selectedImgs o) with _ | v
              · simp only [runExtended, hv] at h
                exact ih rest u h
              · simp only [runExtended, hv] at h
                have hvu : v = u := by simpa using h
                subst hvu
                exact firstValidNew_domain existing o v hv

theorem runDetector_found (existing : List String) (primary extended : List Tick) (u : String)
    (h : runDetector existing primary extended = Outcome.found u) :
    u ∉ existing ∧ validExt u = true ∧ domainMatch u = true := by
  unfold runDetector at h
  split at h
  · next out hp =>
      subst h
      exact runPrimary_found existing primary false u hp
  · next started hp =>
      split at h
      · exact runExtended_found existing 15 extended u h
      · simp at h

theorem runPrimary_append (existing : List String) :
    ∀ pre post started,
      runPrimary existing started (pre ++ post) =
        match runPrimary existing started pre with
        | PrimResult.exited out => PrimResult.exited out
        | PrimResult.timeout s => runPrimary existing s post := by
  intro pre
  induction pre with
  | nil => intro post started; simp [runPrimary]
  | cons t pre ih =>
      intro post started
      cases t with
      | closed => simp [runPrimary]
      | err => simp [runPrimary]
      | obs o =>
          rw [List.cons_append]
          rcases hv : firstValidNew existing (selectedImgs o) with _ | v
          · rw [runPrimary_obs_none existing started o (pre ++ post) hv,
                runPrimary_obs_none existing started o pre hv, ih]
          · rcases hg : hasGridPattern o with _ | _
            · rw [runPrimary_obs_some_nogrid existing started o (pre ++ post) v hv hg,
                  runPrimary_obs_some_nogrid existing started o pre v hv hg]
            · rw [runPrimary_obs_some_grid existing started o (pre ++ post) v hv hg,
                  runPrimary_obs_some_grid existing started o pre v hv hg, ih]

theorem runExtended_allNone (existing : List String) :
    ∀ fuel obsList, (∀ o ∈ List.take fuel obsList, firstValidNew existing (selectedImgs o) = none) →
      runExtended existing fuel (obsList.map Tick.obs) = Outcome.timedOut := by
  intro fuel
  induction fuel with
  | zero => intro obsList _; simp [runExtended]
  | succ fuel ih =>
      intro obsList h
      cases obsList with
      | nil => simp [runExtended]
      | cons o rest =>
          have h0 : firstValidNew existing (selectedImgs o) = none := by
            apply h
            simp [List.take_succ_cons]
          simp only [List.map_cons, runExtended, h0]
          apply ih
          intro o' ho'
          apply h
          rw [List.take_succ_cons]
          exact List.mem_cons_of_mem _ ho'

theorem runExtended_firstSome (existing : List String) :
    ∀ fuel obsList,
      (∃ o ∈ List.take fuel obsList, (firstValidNew existing (selectedImgs o)).isSome) →
      ∃ u, runExtended existing fuel (obsList.map Tick.obs) = Outcome.found u ∧
        u ∉ existing ∧ validExt u = true ∧ domainMatch u = true := by
  intro fuel
  induction fuel with
  | zero => intro obsList h; simp at h
  | succ fuel ih =>
      intro obsList h
      cases obsList with
      | nil => simp at h
      | cons o rest =>
          rcases hv : firstValidNew existing (selectedImgs o) with _ | v
          · have h' : ∃ o' ∈ List.take fuel rest, (firstValidNew existing (selectedImgs o')).isSome := by
              obtain ⟨o', ho', hs⟩ := h
              rw [List.take_succ_cons] at ho'
              rcases List.mem_cons.mp ho' with rfl | hmem
              · rw [hv] at hs; simp at hs
              · exact ⟨o', hmem, hs⟩
            obtain ⟨u, hu, hprops⟩ := ih rest h'
            refine ⟨u, ?_, hprops⟩
            simp only [List.map_cons, runExtended, hv]
            exact hu
          · refine ⟨v, ?_, firstValidNew_domain existing o v hv⟩
            simp [runExtended, hv]

/-- Claim C1 (counterexample to the claim as stated): the detector's
domain check is substring containment (`src*=` selector), not a check of
the URL's host.  A reference hosted on `evil.example` whose path merely
contains the recognized domain string is returned, although its domain in
the spec's sense is neither recognized hosting domain. -/
theorem domain_is_substring_counterexample :
    runDetector []
        [Tick.obs ⟨none, ["https://evil.example/user-gen-media-assets.s3.amazonaws.com/x.png"], false⟩] [] =
      Outcome.found "https://evil.example/user-gen-media-assets.s3.amazonaws.com/x.png" ∧
    specDomainOf "https://evil.example/user-gen-media-assets.s3.amazonaws.com/x.png" = "evil.example" ∧
    "evil.example" ≠ s3Domain ∧ "evil.example" ≠ imageDeliveryDomain := by
  refine ⟨by decide, by decide, by decide, by decide⟩

/-- Claim C1 (amended): every reference the detector returns - in the
primary loop or the extended wait - contains one of the two recognized
domain strings as a substring of its URL and ends in `.png`, `.jpg` or
`.jpeg`; a reference failing either check is never returned. -/
theorem returned_reference_valid (existing : List String) (primary extended : List Tick)
    (u : String) (h : runDetector existing primary extended = Outcome.found u) :
    domainMatch u = true ∧ validExt u = true :=
  ⟨(runDetector_found existing primary extended u h).2.2,
   (runDetector_found existing primary extended u h).2.1⟩

/-- Witness for `returned_reference_valid` at a concrete run. -/
theorem returned_reference_valid_witness :
    runDetector [] [Tick.obs ⟨none, ["https://user-gen-media-assets.s3.amazonaws.com/w1.png"], false⟩] [] =
      Outcome.found "https://user-gen-media-assets.s3.amazonaws.com/w1.png" ∧
    (domainMatch "https://user-gen-media-assets.s3.amazonaws.com/w1.png" = true ∧
     validExt "https://user-gen-media-assets.s3.amazonaws.com/w1.png" = true) :=
  ⟨by decide,
   returned_reference_valid []
     [Tick.obs ⟨none, ["https://user-gen-media-assets.s3.amazonaws.com/w1.png"], false⟩] []
     "https://user-gen-media-assets.s3.amazonaws.com/w1.png" (by decide)⟩

/-- Claim C2 (counterexample to the claim as stated): the extended-wait
loop does not query the overlay, so the detector can transition to Found
at a tick where the in-progress grid overlay is present on the page. -/
theorem extended_wait_ignores_overlay_counterexample :
    runDetector [] [Tick.obs ⟨some 1, [], true⟩]
        [Tick.obs ⟨some 1, ["https://user-gen-media-assets.s3.amazonaws.com/gen.png"], false⟩] =
      Outcome.found "https://user-gen-media-assets.s3.amazonaws.com/gen.png" ∧
    hasGridPattern ⟨some 1, ["https://user-gen-media-assets.s3.amazonaws.com/gen.png"], false⟩ = true := by
  refine ⟨by decide, by decide⟩

/-- Claim C2 (amended): during the primary polling loop, a tick at which
the grid overlay pattern is present never exits with Found, even when a
valid new reference exists; the loop continues polling with only the
`generation_started` latch updated. -/
theorem overlay_present_keeps_polling (existing : List String) (started : Bool) (o : PageObs)
    (rest : List Tick) (h : hasGridPattern o = true) :
    runPrimary existing started (Tick.obs o :: rest) =
      runPrimary existing (started || o.generating) rest := by
  rcases hv : firstValidNew existing (selectedImgs o) with _ | v
  · exact runPrimary_obs_none existing started o rest hv
  · exact runPrimary_obs_some_grid existing started o rest v hv h

/-- Witness for `overlay_present_keeps_polling`: overlay present together
with a valid new reference, and the tick does not exit. -/
theorem overlay_present_keeps_polling_witness :
    hasGridPattern ⟨some 2, ["https://imagedelivery.net/w2/a.png"], false⟩ = true ∧
    runPrimary [] false [Tick.obs ⟨some 2, ["https://imagedelivery.net/w2/a.png"], false⟩] =
      runPrimary [] (false || (⟨some 2, ["https://imagedelivery.net/w2/a.png"], false⟩ : PageObs).generating) [] :=
  ⟨by decide,
   overlay_present_keeps_polling [] false ⟨some 2, ["https://imagedelivery.net/w2/a.png"], false⟩ [] (by decide)⟩

/-- Claim C3: a reference captured in the baseline set before submission
is never reported as the Found result, in the primary loop or the
extended wait, even if it reappears identically. -/
theorem baseline_never_reported (existing : List String) (primary extended : List Tick)
    (u : String) (h : runDetector existing primary extended = Outcome.found u) :
    u ∉ existing :=
  (runDetector_found existing primary extended u h).1

/-- Witness for `baseline_never_reported`: the baseline reference
reappears after submission next to a genuinely new one; the new one is
reported and it is not in the baseline. -/
theorem baseline_never_reported_witness :
    runDetector ["https://imagedelivery.net/base/old.png"]
        [Tick.obs ⟨none, ["https://imagedelivery.net/base/old.png", "https://imagedelivery.net/base/new.png"], false⟩] [] =
      Outcome.found "https://imagedelivery.net/base/new.png" ∧
    "https://imagedelivery.net/base/new.png" ∉ ["https://imagedelivery.net/base/old.png"] :=
  ⟨by decide,
   baseline_never_reported ["https://imagedelivery.net/base/old.png"]
     [Tick.obs ⟨none, ["https://imagedelivery.net/base/old.png", "https://imagedelivery.net/base/new.png"], false⟩] []
     "https://imagedelivery.net/base/new.png" (by decide)⟩

/-- Claim C4 (counterexample to the claim as stated): an unreachable page
takes the aborted exit path and a quiet run the timed-out path, yet the
Python function returns the same `None` value for both, so the caller
cannot distinguish an external interruption from the absence of a
result. -/
theorem aborted_return_equals_timedout_counterexample :
    runDetector [] [Tick.closed] [] = Outcome.aborted ∧
    runDetector [] [] [] = Outcome.timedOut ∧
    Outcome.aborted ≠ Outcome.timedOut ∧
    pyReturn (runDetector [] [Tick.closed] []) = pyReturn (runDetector [] [] []) := by
  refine ⟨rfl, rfl, by decide, rfl⟩

/-- Claim C4 (amended): if the page becomes unreachable at any tick of
the primary polling loop, the run exits immediately through the aborted
path - the outcome is Aborted, never TimedOut, and the extended wait is
skipped - but the function materializes Aborted and TimedOut as the same
`None` return value, so the caller cannot tell them apart from the
returned value. -/
theorem unreachable_aborts_indistinct (existing : List String) (pre post extended : List Tick)
    (s : Bool) (h : runPrimary existing false pre = PrimResult.timeout s) :
    runDetector existing (pre ++ Tick.closed :: post) extended = Outcome.aborted ∧
    Outcome.aborted ≠ Outcome.timedOut ∧
    pyReturn Outcome.aborted = pyReturn Outcome.timedOut := by
  refine ⟨?_, by decide, rfl⟩
  have happ := runPrimary_append existing pre (Tick.closed :: post) false
  rw [h] at happ
  unfold runDetector
  rw [happ]
  simp [runPrimary]

/-- Witness for `unreachable_aborts_indistinct` at a concrete run. -/
theorem unreachable_aborts_indistinct_witness :
    runPrimary [] false [] = PrimResult.timeout false ∧
    (runDetector [] ([] ++ Tick.closed :: []) [] = Outcome.aborted ∧
     Outcome.aborted ≠ Outcome.timedOut ∧
     pyReturn Outcome.aborted = pyReturn Outcome.timedOut) :=
  ⟨rfl, unreachable_aborts_indistinct [] [] [] [] false rfl⟩

/-- Claim C5: when the latch is set and the primary loop times out with
no reference found, the run becomes the extended wait, a loop bounded by
15 one-second ticks; the outcome is Found (with a reference passing the
domain, extension and baseline-exclusion checks) when a valid new
reference appears within those ticks, and TimedOut otherwise. -/
theorem extended_wait_spec (existing : List String) (primary : List Tick) (obsList : List PageObs)
    (h : runPrimary existing false primary = PrimResult.timeout true) :
    runDetector existing primary (obsList.map Tick.obs) =
        runExtended existing 15 (obsList.map Tick.obs) ∧
    ((∀ o ∈ List.take 15 obsList, firstValidNew existing (selectedImgs o) = none) →
        runDetector existing primary (obsList.map Tick.obs) = Outcome.timedOut) ∧
    ((∃ o ∈ List.take 15 obsList, (firstValidNew existing (selectedImgs o)).isSome) →
        ∃ u, runDetector existing primary (obsList.map Tick.obs) = Outcome.found u ∧
          u ∉ existing ∧ validExt u = true ∧ domainMatch u = true) := by
  have hd : runDetector existing primary (obsList.map Tick.obs) =
      runExtended existing 15 (obsList.map Tick.obs) := by
    simp [runDetector, h]
  refine ⟨hd, fun hn => ?_, fun he => ?_⟩
  · rw [hd]
    exact runExtended_allNone existing 15 obsList hn
  · obtain ⟨u, hu, hp⟩ := runExtended_firstSome existing 15 obsList he
    exact ⟨u, hd.trans hu, hp⟩

/-- Witness for `extended_wait_spec` at a concrete run. -/
theorem extended_wait_spec_witness :
    runPrimary [] false [Tick.obs ⟨none, [], true⟩] = PrimResult.timeout true ∧
    runDetector [] [Tick.obs ⟨none, [], true⟩]
        ([(⟨none, ["https://imagedelivery.net/w5/b.png"], false⟩ : PageObs)].map Tick.obs) =
      runExtended [] 15 ([(⟨none, ["https://imagedelivery.net/w5/b.png"], false⟩ : PageObs)].map Tick.obs) :=
  ⟨by decide,
   (extended_wait_spec [] [Tick.obs ⟨none, [], true⟩]
     [⟨none, ["https://imagedelivery.net/w5/b.png"], false⟩] (by decide)).1⟩

/-- Claim C6: when the latch was never set and the primary loop times
out, the outcome is TimedOut directly, independent of whatever the
extended-wait trace would show - the extended wait is skipped. -/
theorem no_latch_skips_extended_wait (existing : List String) (primary extended : List Tick)
    (h : runPrimary existing false primary = PrimResult.timeout false) :
    runDetector existing primary extended = Outcome.timedOut ∧
    runDetector existing primary extended = runDetector existing primary [] := by
  constructor <;> simp [runDetector, h]

/-- Witness for `no_latch_skips_extended_wait`: a valid reference is on
the page during the would-be extended wait, yet the run times out because
the latch was never set. -/
theorem no_latch_skips_extended_wait_witness :
    runPrimary [] false [Tick.obs ⟨none, [], false⟩] = PrimResult.timeout false ∧
    (runDetector [] [Tick.obs ⟨none, [], false⟩]
        [Tick.obs ⟨none, ["https://imagedelivery.net/w6/c.png"], false⟩] = Outcome.timedOut ∧
     runDetector [] [Tick.obs ⟨none, [], false⟩]
        [Tick.obs ⟨none, ["https://imagedelivery.net/w6/c.png"], false⟩] =
       runDetector [] [Tick.obs ⟨none, [], false⟩] []) :=
  ⟨by decide,
   no_latch_skips_extended_wait [] [Tick.obs ⟨none, [], false⟩]
     [Tick.obs ⟨none, ["https://imagedelivery.net/w6/c.png"], false⟩] (by decide)⟩

/-- Claim C7: over any finite sequence of probes fitting inside the
deadline, `wait_for_cdp` returns a boolean totally (every probe failure
is swallowed and treated as not-yet-ready): it returns `true` exactly
when some probe yields a 200-status response, and `false` exactly when
none does before the probes run out. -/
theorem wait_for_cdp_spec (probes : List ProbeResult) :
    (wait_for_cdp probes = true ↔ ProbeResult.status 200 ∈ probes) ∧
    (wait_for_cdp probes = false ↔ ProbeResult.status 200 ∉ probes) := by
  have h : wait_for_cdp probes = true ↔ ProbeResult.status 200 ∈ probes := by
    induction probes with
    | nil => simp [wait_for_cdp]
    | cons p rest ih =>
        cases p with
        | failed => simp [wait_for_cdp, ih]
        | status c =>
            by_cases hc : c = 200
            · subst hc; simp [wait_for_cdp]
            · simp only [wait_for_cdp, if_neg hc, ih, List.mem_cons]
              constructor
              · exact fun hm => Or.inr hm
              · rintro (heq | hm)
                · injection heq with h2
                  exact absurd h2.symm hc
                · exact hm
  refine ⟨h, ?_⟩
  rw [← h]
  cases hw : wait_for_cdp probes <;> simp [hw]

/-- Claim C8 (counterexample to the claim as stated): when the
content-type header is missing, the code does not infer the type from the
reference's `.jpg` extension - it uses the default `image/png`. -/
theorem missing_header_defaults_png_counterexample :
    (download_and_encode_image "https://user-gen-media-assets.s3.amazonaws.com/a.jpg"
        (some ⟨200, none, [1, 2, 3]⟩)).map DownloadedImage.contentType = some "image/png" ∧
    strEndsWith "https://user-gen-media-assets.s3.amazonaws.com/a.jpg" ".jpg" = true ∧
    some "image/png" ≠ some "image/jpeg" := by
  refine ⟨by decide, by decide, by decide⟩

/-- Claim C8 (amended): on a successful fetch the materializer produces a
DownloadedImage whose data-URI is `data:` the content type `;base64,` the
base64 data, whose size is the byte length and whose source is the
reference; a missing content-type header is treated as `image/png`
outright, and the file-extension fallback applies only when a header is
present whose value does not start with `image/`. -/
theorem download_contract_spec (url : String) (resp : HttpResponse)
    (h : ¬(400 ≤ resp.status ∧ resp.status < 600)) :
    download_and_encode_image url (some resp) =
      some { base64 := String.mk (b64encodeBytes resp.body),
             dataUri := "data:" ++ resolveContentType url resp ++ ";base64," ++
               String.mk (b64encodeBytes resp.body),
             contentType := resolveContentType url resp,
             size := resp.body.length,
             originalUrl := url } ∧
    (resp.contentTypeHeader = none → resolveContentType url resp = "image/png") ∧
    (∀ ct, resp.contentTypeHeader = some ct → ctIsImage ct = true →
        resolveContentType url resp = ct) ∧
    (∀ ct, resp.contentTypeHeader = some ct → ctIsImage ct = false →
        resolveContentType url resp =
          if strEndsWith url ".jpg" || strEndsWith url ".jpeg" then "image/jpeg"
          else "image/png") := by
  refine ⟨?_, ?_, ?_, ?_⟩
  · simp [download_and_encode_image, h]
  · intro hn
    have hi : ctIsImage "image/png" = true := by decide
    simp [resolveContentType, hn, hi]
  · intro ct hc hi
    simp [resolveContentType, hc, hi]
  · intro ct hc hi
    simp only [resolveContentType, hc, Option.getD_some, hi]
    rcases hj : (strEndsWith url ".jpg" || strEndsWith url ".jpeg") with _ | _
    · simp only [hj, Bool.false_eq_true, if_false]
      rcases hp : strEndsWith url ".png" with _ | _ <;> simp [hp]
    · simp [hj]

/-- Witness for `download_contract_spec` at a concrete fetch. -/
theorem download_contract_spec_witness :
    ¬(400 ≤ (200 : Nat) ∧ (200 : Nat) < 600) ∧
    download_and_encode_image "https://imagedelivery.net/w8/d.jpeg" (some ⟨200, some "text/plain", [0]⟩) =
      some { base64 := String.mk (b64encodeBytes [0]),
             dataUri := "data:" ++
               resolveContentType "https://imagedelivery.net/w8/d.jpeg" ⟨200, some "text/plain", [0]⟩ ++
               ";base64," ++ String.mk (b64encodeBytes [0]),
             contentType := resolveContentType "https://imagedelivery.net/w8/d.jpeg" ⟨200, some "text/plain", [0]⟩,
             size := List.length [0],
             originalUrl := "https://imagedelivery.net/w8/d.jpeg" } :=
  ⟨by decide,
   (download_contract_spec "https://imagedelivery.net/w8/d.jpeg" ⟨200, some "text/plain", [0]⟩ (by decide)).1⟩

/-- Claim C9: the fallback typing delay equals
`max(5, min(20, 1000 // max(1, n)))` milliseconds for a prompt of length
`n`; for every non-empty prompt it lies in the closed interval 5 to 20
and it is non-increasing as the prompt length grows. -/
theorem typing_delay_spec (n m : Nat) (_h1 : 1 ≤ n) (hnm : n ≤ m) :
    typing_delay_ms n = max 5 (min 20 (1000 / max 1 n)) ∧
    5 ≤ typing_delay_ms n ∧ typing_delay_ms n ≤ 20 ∧
    typing_delay_ms m ≤ typing_delay_ms n := by
  refine ⟨rfl, le_max_left _ _, ?_, ?_⟩
  · exact max_le (by norm_num) (min_le_left _ _)
  · apply max_le_max le_rfl
    apply min_le_min le_rfl
    apply Nat.div_le_div_left
    · exact max_le_max le_rfl hnm
    · exact lt_of_lt_of_le Nat.one_pos (le_max_left _ _)

/-- Witness for `typing_delay_spec` at concrete lengths. -/
theorem typing_delay_spec_witness :
    (1 : Nat) ≤ 1 ∧ (1 : Nat) ≤ 200 ∧
    (typing_delay_ms 1 = max 5 (min 20 (1000 / max 1 1)) ∧
     5 ≤ typing_delay_ms 1 ∧ typing_delay_ms 1 ≤ 20 ∧
     typing_delay_ms 200 ≤ typing_delay_ms 1) :=
  ⟨by decide, by decide, typing_delay_spec 1 200 (by decide) (by decide)⟩

theorem attemptSucceeds_false_iff (a : AttemptObs) :
    attemptSucceeds a = false ↔
      (a = AttemptObs.noElement ∨ a = AttemptObs.notVisible ∨ a = AttemptObs.interactRaise ∨
        ∃ btns, a = AttemptObs.injected btns true ∧ buttonSubmits btns = false) := by
  cases a with
  | noElement => simp [attemptSucceeds]
  | notVisible => simp [attemptSucceeds]
  | interactRaise => simp [attemptSucceeds]
  | injected btns er =>
      cases er <;> rcases hb : buttonSubmits btns with _ | _ <;>
        simp [attemptSucceeds, hb]

/-- Claim C10: a strategy that injected the prompt and whose Enter-key
dispatch does not raise always ends submitted, whatever the submit
buttons showed; consequently the InputNotFound failure arises exactly
when every strategy either found no element, found a non-visible one,
raised during interaction, or - having injected - had no actionable
submit button and a raising Enter dispatch. -/
theorem submission_fallback_spec (attempts : List AttemptObs) :
    (∀ btns, attemptSucceeds (AttemptObs.injected btns false) = true) ∧
    (submitPrompt attempts = false ↔
      ∀ a ∈ attempts,
        a = AttemptObs.noElement ∨ a = AttemptObs.notVisible ∨ a = AttemptObs.interactRaise ∨
          ∃ btns, a = AttemptObs.injected btns true ∧ buttonSubmits btns = false) := by
  constructor
  · intro btns
    rcases hb : buttonSubmits btns with _ | _ <;> simp [attemptSucceeds, hb]
  · unfold submitPrompt
    rw [List.any_eq_false]
    constructor
    · intro h a ha
      exact (attemptSucceeds_false_iff a).mp (by simpa using h a ha)
    · intro h a ha
      simpa using (attemptSucceeds_false_iff a).mpr (h a ha)
